import Mathlib

/-!
Verification of the Todo-application repository against its specification.

The development shallowly embeds the relevant program parts:
* `src/src/models/todo.py` — the `Todo` dataclass, its `__post_init__`
  validation and the `Todo.create` factory.
* `src/backend/src/agent/todo_agent.py` — the system prompt, the
  `_parse_tool_response` helper and the five tool wrapper functions.
* `src/phase2-fullstack-web/backend/src/agent/config.py` — provider
  detection and API-client construction.

Nondeterministic inputs of the Python code (current time, fresh UUIDs,
environment variables, the external JSON parser, the external CRUD
handlers) are passed as explicit parameters.
-/

namespace TodoApp

/-! ## Todo model (src/src/models/todo.py) -/

/-- The `status` field of a `Todo`: Python `Literal["pending", "completed"]`. -/
inductive Status where
  | pending
  | completed
deriving DecidableEq, Repr

/-- The `Todo` dataclass. Python `datetime` values are modelled as opaque
`Nat` timestamps; `completed_at` is `datetime | None`, hence `Option Nat`. -/
structure Todo where
  id : String
  text : String
  status : Status
  created_at : Nat
  completed_at : Option Nat
  updated_at : Nat
deriving DecidableEq, Repr

/-- Construction of a `Todo`: the dataclass `__init__` followed by
`__post_init__`. Python raises `ValueError` when the text is empty
(`not self.text or len(self.text) == 0`, both tests being the emptiness
check) or longer than 200 characters; a raised exception is modelled as
`Except.error` carrying the exception message. -/
def Todo.init (id text : String) (status : Status) (created_at : Nat)
    (completed_at : Option Nat) (updated_at : Nat) : Except String Todo :=
  if text.length = 0 then
    Except.error "Todo text required"
  else if text.length > 200 then
    Except.error "Todo text too long (max 200 characters)"
  else
    Except.ok ⟨id, text, status, created_at, completed_at, updated_at⟩

/-- `Todo.create`: the factory method. The generated `str(uuid.uuid4())`
and `datetime.now(UTC)` are nondeterministic, so they are passed in as
the parameters `fresh_id` and `now`; the factory sets `status` to
`pending`, `completed_at` to `None` and both timestamps to `now`. -/
def Todo.create (text fresh_id : String) (now : Nat) : Except String Todo :=
  Todo.init fresh_id text Status.pending now none now

/-- Modelled from the spec: the Task Store collaborator's `add` operation
(`add(owner, title, description) -> Result<Task, Error>`); its
implementation is not under `src/` (only the console model layer is).
Per the spec, a ValidationError is reported with no state change, and a
successful add appends the created task. The second component is the
store contents after the call; on error it is unchanged. -/
def store_add (todos : List Todo) (text fresh_id : String) (now : Nat) :
    Except String Todo × List Todo :=
  match Todo.create text fresh_id now with
  | Except.error e => (Except.error e, todos)
  | Except.ok t => (Except.ok t, todos ++ [t])

/-- Modelled from the spec: the Task Store collaborator's `list` operation
(`list(owner, filter) -> Result<Sequence<Task>, Error>`) with filter
`all`: it returns the stored tasks. -/
def store_list (todos : List Todo) : List Todo :=
  todos


/-! ## Agent layer (src/backend/src/agent/todo_agent.py) -/

/-- Text of the system prompt before the `{date_str}` interpolation point. -/
def promptPre : String := "You are a friendly and helpful todo list assistant. You help users manage their tasks through natural conversation.

LANGUAGE: You MUST respond in the SAME LANGUAGE as the user. If user writes in Urdu, respond in Urdu. If user writes in English, respond in English.

IMPORTANT - Current Date/Time Information:
- Today\x27s date is: "

/-- Text of the system prompt between the `{date_str}` and `{time_str}`
interpolation points. -/
def promptMid : String := "
- Current time is: "

/-- Text of the system prompt after the `{time_str}` interpolation point. -/
def promptPost : String := "
- Use this information when users mention relative dates like \"tomorrow\", \"next week\", \"coming Saturday\", \"kal\", \"aglay haftay\", etc.

Your capabilities:
- Add new tasks (when user mentions adding, creating, remembering something)
- List tasks (when user asks to see, show, or list tasks)
- Complete tasks (when user says done, finished, completed, \"ho gaya\", \"mukammal\")
- Update tasks (when user wants to change, rename, or modify)
- Delete tasks (when user says delete, remove, cancel, \"hatao\", \"delete karo\", \"mita do\")

CRITICAL WORKFLOW for Delete/Update/Complete operations:
1. FIRST: Call list_tasks to get tasks. The response contains \"full_id\" field - this is the UUID you MUST use.
2. THEN: Match the user\x27s request to the task(s) by title/description
3. ASK FOR CONFIRMATION ONCE (only if you haven\x27t already in this conversation)
4. WHEN USER CONFIRMS (says \"yes\", \"haan\", \"g\", \"ji\", \"delete karo\", \"karo\", \"do it\", \"go ahead\", etc.):
   - IMMEDIATELY call the tool (delete_task, complete_task, update_task) with the \"full_id\" value
   - DO NOT ask for confirmation again
   - DO NOT call list_tasks again after confirmation
5. If user says \"no\", \"nahi\", \"cancel\", \"mat karo\" - cancel the operation

VERY IMPORTANT - Using Task IDs:
- The list_tasks response has \"id\" (short) and \"full_id\" (complete UUID)
- You MUST use the \"full_id\" value when calling delete_task, complete_task, or update_task
- Example: If list_tasks returns \x7b\"id\": \"abc12345\", \"full_id\": \"abc12345-6789-...\", \"title\": \"Buy milk\"\x7d
  Then call delete_task with task_id=\"abc12345-6789-...\" (the full_id value)

CONFIRMATION RECOGNITION - These ALL mean YES:
- English: \"yes\", \"yeah\", \"yep\", \"sure\", \"ok\", \"okay\", \"do it\", \"go ahead\", \"confirm\", \"delete it\"
- Urdu: \"haan\", \"han\", \"ji\", \"g\", \"ji haan\", \"kar do\", \"karo\", \"delete karo\", \"hata do\", \"theek hai\"

Guidelines:
- ONLY ask for confirmation ONCE, then act on the user\x27s response
- When listing tasks, format them clearly and numbered (1, 2, 3...) - don\x27t show UUIDs to users
- Never expose technical error details or UUIDs to users
- Be helpful and engaging in your responses
- Acknowledge user accomplishments and provide encouragement

Example flow:
1. User: \"delete my task\"
2. You: Call list_tasks → find task with full_id=\"abc-123-...\"
3. You: \"I found \x27Buy groceries\x27. Delete it?\"
4. User: \"yes\" or \"haan\" or \"g\"
5. You: IMMEDIATELY call delete_task(task_id=\"abc-123-...\") - NO more questions!
6. You: \"Done! Task deleted.\" "


/-- `get_system_prompt`: builds the agent instructions. The formatted
current date and time (`now.strftime(...)`) are nondeterministic inputs,
passed in as `date_str` and `time_str`. -/
def get_system_prompt (date_str time_str : String) : String :=
  promptPre ++ (date_str ++ (promptMid ++ (time_str ++ promptPost)))

/-- Substring test on character lists: `containsSub sub s` is true when
`sub` occurs contiguously inside `s`. -/
def containsSub (sub : List Char) : List Char → Bool
  | [] => sub.isEmpty
  | c :: rest => sub.isPrefixOf (c :: rest) || containsSub sub rest

/-- Substring test on strings. -/
def strContains (s sub : String) : Bool :=
  containsSub sub.data s.data

/-- A text content item of an MCP tool result (`result[0].text`). -/
structure TextContent where
  text : String

/-- `AgentContext`: the context passed to agent tools; the database
session and authenticated user id are opaque, so their types are
parameters. -/
structure AgentContext (S U : Type) where
  session : S
  user_id : U

/-- The tool-calling framework wrapper around the context. -/
structure RunContextWrapper (C : Type) where
  context : C

/-- `tool_add_task`: forwards the context session and user id together
with `title` and `description` to the `add_task` CRUD handler (the
handler, `mcp.tools.add_task`, is an external collaborator passed as a
parameter) and returns `result[0].text`, or a fallback string when the
handler returns no content. -/
def tool_add_task {S U : Type}
    (add_task : S → U → String → String → List TextContent)
    (ctx : RunContextWrapper (AgentContext S U))
    (title description : String) : String :=
  match add_task ctx.context.session ctx.context.user_id title description with
  | [] => "Failed to add task"
  | r :: _ => r.text

/-- `tool_list_tasks`: forwards the context session and user id with the
`filter` argument to the `list_tasks` handler and returns its text. -/
def tool_list_tasks {S U : Type}
    (list_tasks : S → U → String → List TextContent)
    (ctx : RunContextWrapper (AgentContext S U))
    (filter : String) : String :=
  match list_tasks ctx.context.session ctx.context.user_id filter with
  | [] => "Failed to list tasks"
  | r :: _ => r.text

/-- `tool_complete_task`: forwards the context session and user id with
`task_id` to the `complete_task` handler and returns its text. -/
def tool_complete_task {S U : Type}
    (complete_task : S → U → String → List TextContent)
    (ctx : RunContextWrapper (AgentContext S U))
    (task_id : String) : String :=
  match complete_task ctx.context.session ctx.context.user_id task_id with
  | [] => "Failed to complete task"
  | r :: _ => r.text

/-- `tool_update_task`: forwards the context session and user id with
`task_id`, `title` and the optional `description` to the `update_task`
handler and returns its text. -/
def tool_update_task {S U : Type}
    (update_task : S → U → String → String → Option String → List TextContent)
    (ctx : RunContextWrapper (AgentContext S U))
    (task_id title : String) (description : Option String) : String :=
  match update_task ctx.context.session ctx.context.user_id task_id title description with
  | [] => "Failed to update task"
  | r :: _ => r.text

/-- `tool_delete_task`: forwards the context session and user id with
`task_id` to the `delete_task` handler and returns its text. -/
def tool_delete_task {S U : Type}
    (delete_task : S → U → String → List TextContent)
    (ctx : RunContextWrapper (AgentContext S U))
    (task_id : String) : String :=
  match delete_task ctx.context.session ctx.context.user_id task_id with
  | [] => "Failed to delete task"
  | r :: _ => r.text

/-- JSON values, as produced by Python `json.loads`. -/
inductive JsonValue where
  | null
  | bool (b : Bool)
  | num (n : Int)
  | str (s : String)
  | arr (elems : List JsonValue)
  | obj (fields : List (String × JsonValue))

/-- Whether a JSON value is an object (a Python `dict`). -/
def JsonValue.isObj : JsonValue → Bool
  | JsonValue.obj _ => true
  | _ => false

/-- `_parse_tool_response`: tries `json.loads` on the response text and
falls back to a structured failure dict on `JSONDecodeError`. The
external parser `json.loads` is passed as a parameter returning `none`
exactly when it would raise `JSONDecodeError`. -/
def _parse_tool_response (json_loads : String → Option JsonValue)
    (response_text : String) : JsonValue :=
  match json_loads response_text with
  | some v => v
  | none =>
    JsonValue.obj
      [("success", JsonValue.bool false),
       ("error", JsonValue.obj [("message", JsonValue.str response_text)])]

/-! ## Task store operations modelled from the spec -/

/-- A task as exposed by the store to the policy: per the spec it carries
the canonical full identifier, the owner reference, a title and the
completion flag. -/
structure Task where
  full_id : String
  owner : String
  title : String
  completed : Bool
deriving DecidableEq, Repr

/-- Modelled from the spec: the Task Store collaborator\x27s `complete`
operation, `complete(owner, taskId) -> Result<Task, Error>` ("toggles
completion"); its implementation (`mcp.tools.complete_task`) is not
under `src/`. It looks up the owner\x27s task with the given canonical
identifier, flips its completion flag and returns the updated task; an
unknown identifier is a NotFoundError. -/
def store_complete (tasks : List Task) (owner taskId : String) :
    Except String Task × List Task :=
  match tasks.find? (fun t => t.owner == owner && t.full_id == taskId) with
  | none => (Except.error "Task not found", tasks)
  | some t =>
    let updated : Task := ⟨t.full_id, t.owner, t.title, !t.completed⟩
    (Except.ok updated,
     tasks.map (fun u => if u.owner == owner && u.full_id == taskId then updated else u))

/-! ## Provider configuration (src/phase2-fullstack-web/backend/src/agent/config.py) -/

/-- The Gemini OpenAI-compatible endpoint. -/
def GEMINI_BASE_URL : String :=
  "https://generativelanguage.googleapis.com/v1beta/openai/"

/-- The process environment: `os.environ.get` returns `none` for an
unset variable. -/
abbrev Env : Type := String → Option String

/-- Python `str.lower()` (character-wise lowercasing; agrees with the
source for the ASCII provider names it is applied to). -/
def py_lower (s : String) : String :=
  String.mk (s.data.map Char.toLower)

/-- Python truthiness of an `os.environ.get(key)` result: true exactly
for a set, non-empty variable. -/
def optTruthy (v : Option String) : Bool :=
  !(v.getD "").isEmpty

/-- `_detect_provider`: uses the lowercased `AI_PROVIDER` value when it
is non-empty; otherwise prefers Gemini when `GEMINI_API_KEY` is set,
then OpenAI when `OPENAI_API_KEY` is set, and defaults to Gemini. -/
def _detect_provider (env : Env) : String :=
  let provider := py_lower ((env "AI_PROVIDER").getD "")
  if provider ≠ "" then provider
  else if optTruthy (env "GEMINI_API_KEY") then "gemini"
  else if optTruthy (env "OPENAI_API_KEY") then "openai"
  else "gemini"

/-- Result of `get_api_client`: either a constructed `AsyncOpenAI`
client (recorded by its key and optional base url) or a raised
`AgentConfigError` with its message. -/
inductive ClientResult where
  | client (api_key : String) (base_url : Option String)
  | configError (msg : String)
deriving DecidableEq, Repr

/-- `get_api_client`: for the `gemini` provider requires
`GEMINI_API_KEY` and configures the Gemini base url; for any other
provider requires `OPENAI_API_KEY`; a missing key raises
`AgentConfigError`. -/
def get_api_client (env : Env) : ClientResult :=
  let provider := _detect_provider env
  if provider = "gemini" then
    let api_key := (env "GEMINI_API_KEY").getD ""
    if api_key.isEmpty then
      ClientResult.configError "GEMINI_API_KEY environment variable is not set."
    else
      ClientResult.client api_key (some GEMINI_BASE_URL)
  else
    let api_key := (env "OPENAI_API_KEY").getD ""
    if api_key.isEmpty then
      ClientResult.configError "OPENAI_API_KEY environment variable is not set."
    else
      ClientResult.client api_key none


/-! ## Helper lemmas -/

set_option maxRecDepth 100000

set_option maxHeartbeats 1000000

theorem Todo.init_ok (id text : String) (st : Status) (ca : Nat)
    (comp : Option Nat) (ua : Nat) (h1 : 1 ≤ text.length) (h2 : text.length ≤ 200) :
    Todo.init id text st ca comp ua = Except.ok ⟨id, text, st, ca, comp, ua⟩ := by
  unfold Todo.init
  rw [if_neg (by omega), if_neg (by omega)]

theorem containsSub_cons (sub : List Char) (c : Char) (l : List Char)
    (h : containsSub sub l = true) : containsSub sub (c :: l) = true := by
  unfold containsSub
  rw [h]
  simp

theorem containsSub_append_left (sub l2 : List Char) (h : containsSub sub l2 = true)
    (l1 : List Char) : containsSub sub (l1 ++ l2) = true := by
  induction l1 with
  | nil => simpa using h
  | cons c rest ih => exact containsSub_cons sub c (rest ++ l2) ih

theorem strContains_append_left (s1 s2 sub : String) (h : strContains s2 sub = true) :
    strContains (s1 ++ s2) sub = true := by
  unfold strContains at h ⊢
  have hd : (s1 ++ s2).data = s1.data ++ s2.data := rfl
  rw [hd]
  exact containsSub_append_left sub.data s2.data h s1.data

theorem strContains_prompt (date_str time_str sub : String)
    (h : strContains promptPost sub = true) :
    strContains (get_system_prompt date_str time_str) sub = true := by
  unfold get_system_prompt
  exact strContains_append_left _ _ _ (strContains_append_left _ _ _
    (strContains_append_left _ _ _ (strContains_append_left _ _ _ h)))

/-! ## Claim theorems -/

/-- C1 counterexample: the claimed title bound (non-empty, at most 100
characters) does not hold of the code: a `Todo` whose text has 101
characters — outside the claimed bound — is accepted by construction. -/
theorem todo_title_bound_counterexample :
    (String.mk (List.replicate 101 'a')).length = 101 ∧
    Todo.init "id-0" (String.mk (List.replicate 101 'a')) Status.pending 0 none 0 =
      Except.ok ⟨"id-0", String.mk (List.replicate 101 'a'), Status.pending, 0, none, 0⟩ := by
  constructor
  · rfl
  · rfl

/-- C1 (amended): every constructed `Todo` satisfies the text bound the
code enforces — text non-empty and at most 200 characters; construction
succeeds exactly within that bound, and a successfully constructed
`Todo` always carries a text within it. -/
theorem todo_text_bound (id text : String) (st : Status) (ca : Nat)
    (comp : Option Nat) (ua : Nat) :
    ((∃ t, Todo.init id text st ca comp ua = Except.ok t) ↔
      (1 ≤ text.length ∧ text.length ≤ 200)) ∧
    (∀ t, Todo.init id text st ca comp ua = Except.ok t →
      1 ≤ t.text.length ∧ t.text.length ≤ 200) := by
  constructor
  · constructor
    · rintro ⟨t, ht⟩
      unfold Todo.init at ht
      split at ht
      · simp at ht
      · split at ht
        · simp at ht
        · omega
    · rintro ⟨h1, h2⟩
      exact ⟨_, Todo.init_ok id text st ca comp ua h1 h2⟩
  · intro t ht
    unfold Todo.init at ht
    split at ht
    · simp at ht
    · split at ht
      · simp at ht
      · injection ht with h
        subst h
        exact (show 1 ≤ text.length ∧ text.length ≤ 200 by omega)

/-- C1 witness: instantiates the amended bound theorem on a concrete
successfully constructed `Todo`. -/
theorem todo_text_bound_witness :
    1 ≤ (Todo.mk "id-1" "hello" Status.pending 0 none 0).text.length ∧
    (Todo.mk "id-1" "hello" Status.pending 0 none 0).text.length ≤ 200 :=
  (todo_text_bound "id-1" "hello" Status.pending 0 none 0).2
    ⟨"id-1", "hello", Status.pending, 0, none, 0⟩ (by rfl)

/-- C2: an add request whose derived title is the empty string raises the
validation error, constructs no task object, and leaves the store
unchanged (zero store calls). -/
theorem add_empty_title_rejected (todos : List Todo) (fresh_id : String) (now : Nat) :
    Todo.create "" fresh_id now = Except.error "Todo text required" ∧
    (store_add todos "" fresh_id now).1 = Except.error "Todo text required" ∧
    (store_add todos "" fresh_id now).2 = todos := by
  have hc : Todo.create "" fresh_id now = Except.error "Todo text required" := rfl
  refine ⟨hc, ?_, ?_⟩ <;> · unfold store_add; rw [hc]

/-- C3: for every text of length 1 to 200, `Todo.create` returns a task
whose text equals the input, with status `pending`, `completed_at`
`None`, equal creation and update timestamps, and the freshly generated
id; the added task is subsequently listed with that text and pending
status. -/
theorem todo_create_round_trip (text fresh_id : String) (now : Nat) (todos : List Todo)
    (h1 : 1 ≤ text.length) (h2 : text.length ≤ 200) :
    Todo.create text fresh_id now =
      Except.ok ⟨fresh_id, text, Status.pending, now, none, now⟩ ∧
    ∃ t, t ∈ store_list (store_add todos text fresh_id now).2 ∧
      t.text = text ∧ t.status = Status.pending := by
  have hc : Todo.create text fresh_id now =
      Except.ok ⟨fresh_id, text, Status.pending, now, none, now⟩ :=
    Todo.init_ok fresh_id text Status.pending now none now h1 h2
  refine ⟨hc, ⟨fresh_id, text, Status.pending, now, none, now⟩, ?_, rfl, rfl⟩
  unfold store_list store_add
  rw [hc]
  simp

/-- C3 witness: the round trip on a concrete one-word task. -/
theorem todo_create_round_trip_witness :
    Todo.create "Buy milk" "id-3" 5 =
      Except.ok ⟨"id-3", "Buy milk", Status.pending, 5, none, 5⟩ ∧
    ∃ t, t ∈ store_list (store_add [] "Buy milk" "id-3" 5).2 ∧
      t.text = "Buy milk" ∧ t.status = Status.pending :=
  todo_create_round_trip "Buy milk" "id-3" 5 [] (by decide) (by decide)

/-- C10: `Todo` construction validates only the text length: any status
and any `completed_at` value (including `none` together with status
`completed`) are accepted whenever the text has length 1 to 200. -/
theorem todo_validation_only_text (id text : String) (st : Status) (ca : Nat)
    (comp : Option Nat) (ua : Nat) (h1 : 1 ≤ text.length) (h2 : text.length ≤ 200) :
    Todo.init id text st ca comp ua = Except.ok ⟨id, text, st, ca, comp, ua⟩ :=
  Todo.init_ok id text st ca comp ua h1 h2

/-- C10 witness: a `Todo` with status `completed` and `completed_at`
`none` constructs successfully. -/
theorem todo_validation_only_text_witness :
    Todo.init "id-4" "write report" Status.completed 3 none 4 =
      Except.ok ⟨"id-4", "write report", Status.completed, 3, none, 4⟩ :=
  todo_validation_only_text "id-4" "write report" Status.completed 3 none 4
    (by decide) (by decide)


/-- C5: whatever the interpolated current date and time, the system
prompt the policy is configured with contains the affirmative
confirmation phrases "yes", "yeah", "ok", "do it" (English) and "haan",
"ji", "karo" (Urdu), and the negative phrases "no", "cancel" (English)
and "nahi", "mat karo" (Urdu) — a vocabulary covering two languages. -/
theorem system_prompt_confirmation_vocabulary (date_str time_str : String) :
    strContains (get_system_prompt date_str time_str) "yes" = true ∧
    strContains (get_system_prompt date_str time_str) "yeah" = true ∧
    strContains (get_system_prompt date_str time_str) "ok" = true ∧
    strContains (get_system_prompt date_str time_str) "do it" = true ∧
    strContains (get_system_prompt date_str time_str) "haan" = true ∧
    strContains (get_system_prompt date_str time_str) "ji" = true ∧
    strContains (get_system_prompt date_str time_str) "karo" = true ∧
    strContains (get_system_prompt date_str time_str) "no" = true ∧
    strContains (get_system_prompt date_str time_str) "cancel" = true ∧
    strContains (get_system_prompt date_str time_str) "nahi" = true ∧
    strContains (get_system_prompt date_str time_str) "mat karo" = true := by
  refine ⟨?_, ?_, ?_, ?_, ?_, ?_, ?_, ?_, ?_, ?_, ?_⟩ <;>
    · apply strContains_prompt
      decide


/-- C6: the complete operation toggles the completion flag: for every
task in the store owned by the caller and found by its canonical
identifier, completing it returns the task with its completion flag
flipped (pending becomes completed and completed becomes pending),
other fields unchanged. -/
theorem complete_toggles (tasks : List Task) (owner taskId : String) (t : Task)
    (h : tasks.find? (fun u => u.owner == owner && u.full_id == taskId) = some t) :
    (store_complete tasks owner taskId).1 =
      Except.ok ⟨t.full_id, t.owner, t.title, !t.completed⟩ := by
  unfold store_complete
  rw [h]

/-- C6 witness: toggling a concrete pending task marks it completed, and
toggling a concrete completed task marks it pending again. -/
theorem complete_toggles_witness :
    (store_complete [⟨"a1", "u1", "Buy milk", false⟩] "u1" "a1").1 =
      Except.ok ⟨"a1", "u1", "Buy milk", true⟩ ∧
    (store_complete [⟨"a1", "u1", "Buy milk", true⟩] "u1" "a1").1 =
      Except.ok ⟨"a1", "u1", "Buy milk", false⟩ :=
  ⟨complete_toggles [⟨"a1", "u1", "Buy milk", false⟩] "u1" "a1"
      ⟨"a1", "u1", "Buy milk", false⟩ rfl,
   complete_toggles [⟨"a1", "u1", "Buy milk", true⟩] "u1" "a1"
      ⟨"a1", "u1", "Buy milk", true⟩ rfl⟩

/-- C7: each of the five tool wrappers is a pure pass-through: its output
is fully determined by the handler\x27s value at the forwarded context
session, the authenticated user id, and the wrapper\x27s own arguments
(so every store call is scoped to the owning user), and whenever the
handler returns content the wrapper returns that content\x27s text. -/
theorem todo_tools_pass_through {S U : Type}
    (ctx : RunContextWrapper (AgentContext S U)) :
    (∀ (h h2 : S → U → String → String → List TextContent) (title description : String),
        h ctx.context.session ctx.context.user_id title description =
          h2 ctx.context.session ctx.context.user_id title description →
        tool_add_task h ctx title description = tool_add_task h2 ctx title description) ∧
    (∀ (h : S → U → String → String → List TextContent) (title description : String)
        (r : TextContent) (rs : List TextContent),
        h ctx.context.session ctx.context.user_id title description = r :: rs →
        tool_add_task h ctx title description = r.text) ∧
    (∀ (h h2 : S → U → String → List TextContent) (filter : String),
        h ctx.context.session ctx.context.user_id filter =
          h2 ctx.context.session ctx.context.user_id filter →
        tool_list_tasks h ctx filter = tool_list_tasks h2 ctx filter) ∧
    (∀ (h : S → U → String → List TextContent) (filter : String)
        (r : TextContent) (rs : List TextContent),
        h ctx.context.session ctx.context.user_id filter = r :: rs →
        tool_list_tasks h ctx filter = r.text) ∧
    (∀ (h h2 : S → U → String → List TextContent) (task_id : String),
        h ctx.context.session ctx.context.user_id task_id =
          h2 ctx.context.session ctx.context.user_id task_id →
        tool_complete_task h ctx task_id = tool_complete_task h2 ctx task_id) ∧
    (∀ (h : S → U → String → List TextContent) (task_id : String)
        (r : TextContent) (rs : List TextContent),
        h ctx.context.session ctx.context.user_id task_id = r :: rs →
        tool_complete_task h ctx task_id = r.text) ∧
    (∀ (h h2 : S → U → String → String → Option String → List TextContent)
        (task_id title : String) (description : Option String),
        h ctx.context.session ctx.context.user_id task_id title description =
          h2 ctx.context.session ctx.context.user_id task_id title description →
        tool_update_task h ctx task_id title description =
          tool_update_task h2 ctx task_id title description) ∧
    (∀ (h : S → U → String → String → Option String → List TextContent)
        (task_id title : String) (description : Option String)
        (r : TextContent) (rs : List TextContent),
        h ctx.context.session ctx.context.user_id task_id title description = r :: rs →
        tool_update_task h ctx task_id title description = r.text) ∧
    (∀ (h h2 : S → U → String → List TextContent) (task_id : String),
        h ctx.context.session ctx.context.user_id task_id =
          h2 ctx.context.session ctx.context.user_id task_id →
        tool_delete_task h ctx task_id = tool_delete_task h2 ctx task_id) ∧
    (∀ (h : S → U → String → List TextContent) (task_id : String)
        (r : TextContent) (rs : List TextContent),
        h ctx.context.session ctx.context.user_id task_id = r :: rs →
        tool_delete_task h ctx task_id = r.text) := by
  refine ⟨?_, ?_, ?_, ?_, ?_, ?_, ?_, ?_, ?_, ?_⟩
  · intro h h2 title description heq
    unfold tool_add_task
    rw [heq]
  · intro h title description r rs heq
    unfold tool_add_task
    rw [heq]
  · intro h h2 filter heq
    unfold tool_list_tasks
    rw [heq]
  · intro h filter r rs heq
    unfold tool_list_tasks
    rw [heq]
  · intro h h2 task_id heq
    unfold tool_complete_task
    rw [heq]
  · intro h task_id r rs heq
    unfold tool_complete_task
    rw [heq]
  · intro h h2 task_id title description heq
    unfold tool_update_task
    rw [heq]
  · intro h task_id title description r rs heq
    unfold tool_update_task
    rw [heq]
  · intro h h2 task_id heq
    unfold tool_delete_task
    rw [heq]
  · intro h task_id r rs heq
    unfold tool_delete_task
    rw [heq]

/-- C7 witness: concrete instantiations of the pass-through theorem for
each wrapper, with handlers echoing the forwarded arguments. -/
theorem todo_tools_pass_through_witness :
    tool_add_task (fun _ _ title _ => [⟨title⟩])
      (⟨⟨0, 7⟩⟩ : RunContextWrapper (AgentContext Nat Nat)) "Buy milk" "" = "Buy milk" ∧
    tool_add_task (fun _ _ title _ => [⟨title⟩])
      (⟨⟨0, 7⟩⟩ : RunContextWrapper (AgentContext Nat Nat)) "Buy milk" "" =
      tool_add_task (fun n _ title _ => if n = 0 then [⟨title⟩] else [])
        (⟨⟨0, 7⟩⟩ : RunContextWrapper (AgentContext Nat Nat)) "Buy milk" "" ∧
    tool_list_tasks (fun _ _ filter => [⟨filter⟩])
      (⟨⟨0, 7⟩⟩ : RunContextWrapper (AgentContext Nat Nat)) "all" = "all" ∧
    tool_complete_task (fun _ _ task_id => [⟨task_id⟩])
      (⟨⟨0, 7⟩⟩ : RunContextWrapper (AgentContext Nat Nat)) "a1" = "a1" ∧
    tool_update_task (fun _ _ _ title _ => [⟨title⟩])
      (⟨⟨0, 7⟩⟩ : RunContextWrapper (AgentContext Nat Nat)) "a1" "New title" none = "New title" ∧
    tool_delete_task (fun _ _ task_id => [⟨task_id⟩])
      (⟨⟨0, 7⟩⟩ : RunContextWrapper (AgentContext Nat Nat)) "a1" = "a1" :=
  ⟨(todo_tools_pass_through ⟨⟨0, 7⟩⟩).2.1 _ "Buy milk" "" ⟨"Buy milk"⟩ [] rfl,
   (todo_tools_pass_through ⟨⟨0, 7⟩⟩).1 _ _ "Buy milk" "" rfl,
   (todo_tools_pass_through ⟨⟨0, 7⟩⟩).2.2.2.1 _ "all" ⟨"all"⟩ [] rfl,
   (todo_tools_pass_through ⟨⟨0, 7⟩⟩).2.2.2.2.2.1 _ "a1" ⟨"a1"⟩ [] rfl,
   (todo_tools_pass_through ⟨⟨0, 7⟩⟩).2.2.2.2.2.2.2.1 _ "a1" "New title" none
      ⟨"New title"⟩ [] rfl,
   (todo_tools_pass_through ⟨⟨0, 7⟩⟩).2.2.2.2.2.2.2.2.2 _ "a1" ⟨"a1"⟩ [] rfl⟩


/-- C8 counterexample: the claim that `_parse_tool_response` always
returns a dict fails for valid JSON that is not an object: Python
`json.loads` parses the string "42" to the number 42, and the function
returns that number unchanged, which is not a dict. -/
theorem parse_tool_response_counterexample :
    JsonValue.isObj
      (_parse_tool_response
        (fun s => if s == "42" then some (JsonValue.num 42) else none) "42") = false := rfl

/-- C8 (amended): `_parse_tool_response` never raises: for a string the
parser accepts it returns the parsed JSON value unchanged (a dict
exactly when that value is a JSON object), and for a string the parser
rejects it returns the structured failure dict carrying the original
string. -/
theorem parse_tool_response_spec (json_loads : String → Option JsonValue) (s : String) :
    (∀ v, json_loads s = some v → _parse_tool_response json_loads s = v) ∧
    (json_loads s = none →
      _parse_tool_response json_loads s =
        JsonValue.obj
          [("success", JsonValue.bool false),
           ("error", JsonValue.obj [("message", JsonValue.str s)])] ∧
      JsonValue.isObj (_parse_tool_response json_loads s) = true) := by
  constructor
  · intro v hv
    unfold _parse_tool_response
    rw [hv]
  · intro hn
    unfold _parse_tool_response
    rw [hn]
    exact ⟨rfl, rfl⟩

/-- C8 witness: a parser failure on a concrete malformed string yields
the structured failure dict, and a concrete parsed value is returned
unchanged. -/
theorem parse_tool_response_spec_witness :
    _parse_tool_response (fun _ => none) "oops" =
      JsonValue.obj
        [("success", JsonValue.bool false),
         ("error", JsonValue.obj [("message", JsonValue.str "oops")])] ∧
    _parse_tool_response (fun _ => some (JsonValue.bool true)) "true" = JsonValue.bool true :=
  ⟨((parse_tool_response_spec (fun _ => none) "oops").2 rfl).1,
   (parse_tool_response_spec (fun _ => some (JsonValue.bool true)) "true").1
      (JsonValue.bool true) rfl⟩

theorem py_lower_empty : py_lower "" = "" := rfl

theorem py_lower_eq_empty_iff (s : String) : py_lower s = "" ↔ s = "" := by
  constructor
  · intro h
    have hd : s.data.map Char.toLower = ([] : List Char) := congrArg String.data h
    have hnil : s.data = [] := List.map_eq_nil_iff.mp hd
    cases s
    simp_all
  · intro h
    subst h
    rfl

theorem optTruthy_false_iff (v : Option String) : optTruthy v = false ↔ v.getD "" = "" := by
  simp [optTruthy, String.isEmpty_iff (v.getD "")]

/-- C9: provider selection is deterministic in the environment: a set,
non-empty `AI_PROVIDER` selects its lowercased value; otherwise Gemini
is selected when `GEMINI_API_KEY` is set, OpenAI when only
`OPENAI_API_KEY` is set, and Gemini by default when neither is set — in
which case `get_api_client` raises `AgentConfigError` instead of
returning a client. -/
theorem provider_selection (env : Env) :
    (∀ v, env "AI_PROVIDER" = some v → v ≠ "" → _detect_provider env = py_lower v) ∧
    (optTruthy (env "AI_PROVIDER") = false → optTruthy (env "GEMINI_API_KEY") = true →
      _detect_provider env = "gemini") ∧
    (optTruthy (env "AI_PROVIDER") = false → optTruthy (env "GEMINI_API_KEY") = false →
      optTruthy (env "OPENAI_API_KEY") = true → _detect_provider env = "openai") ∧
    (optTruthy (env "AI_PROVIDER") = false → optTruthy (env "GEMINI_API_KEY") = false →
      optTruthy (env "OPENAI_API_KEY") = false →
      _detect_provider env = "gemini" ∧
      get_api_client env =
        ClientResult.configError "GEMINI_API_KEY environment variable is not set.") := by
  refine ⟨?_, ?_, ?_, ?_⟩
  · intro v hv hne
    have hcond : py_lower v ≠ "" := fun h => hne ((py_lower_eq_empty_iff v).mp h)
    simp only [_detect_provider, hv, Option.getD_some]
    rw [if_pos hcond]
  · intro h1 h2
    have h1' : (env "AI_PROVIDER").getD "" = "" := (optTruthy_false_iff _).mp h1
    simp [_detect_provider, h1', py_lower_empty, h2]
  · intro h1 h2 h3
    have h1' : (env "AI_PROVIDER").getD "" = "" := (optTruthy_false_iff _).mp h1
    simp [_detect_provider, h1', py_lower_empty, h2, h3]
  · intro h1 h2 h3
    have h1' : (env "AI_PROVIDER").getD "" = "" := (optTruthy_false_iff _).mp h1
    have hd : _detect_provider env = "gemini" := by
      simp [_detect_provider, h1', py_lower_empty, h2, h3]
    refine ⟨hd, ?_⟩
    have hk : ((env "GEMINI_API_KEY").getD "").isEmpty = true := by
      simpa [optTruthy] using h2
    simp [get_api_client, hd, hk]

/-- C9 witness: concrete environments exercising all four selection
branches, including the configuration error when no key is set. -/
theorem provider_selection_witness :
    _detect_provider (fun k => if k == "AI_PROVIDER" then some "Gemini" else none) = "gemini" ∧
    _detect_provider (fun k => if k == "GEMINI_API_KEY" then some "g-key" else none) = "gemini" ∧
    _detect_provider (fun k => if k == "OPENAI_API_KEY" then some "o-key" else none) = "openai" ∧
    (_detect_provider (fun _ => none) = "gemini" ∧
      get_api_client (fun _ => none) =
        ClientResult.configError "GEMINI_API_KEY environment variable is not set.") := by
  refine ⟨?_, ?_, ?_, ?_⟩
  · have h :=
      (provider_selection (fun k => if k == "AI_PROVIDER" then some "Gemini" else none)).1
        "Gemini" rfl (by decide)
    rw [h]
    rfl
  · exact (provider_selection
      (fun k => if k == "GEMINI_API_KEY" then some "g-key" else none)).2.1 rfl rfl
  · exact (provider_selection
      (fun k => if k == "OPENAI_API_KEY" then some "o-key" else none)).2.2.1 rfl rfl rfl
  · exact (provider_selection (fun _ => none)).2.2.2 rfl rfl rfl

end TodoApp
